import Mathlib

/-!
Verification of the strava-komoot-sync repository against its
natural-language specification.

The Python source is shallowly embedded: pure functions become Lean
functions, the stateful `SyncManager` becomes explicit state passing over
its in-memory `sync_log` list, and the two HTTP clients become explicit
environments (records of functions standing for the remote endpoints).
Timestamps are modelled as integer epoch seconds; GPX byte strings as
`List Nat`.
-/

namespace StravaKomootSync

/-! ### Destination client: category mapping

`KomootClient.map_strava_to_komoot_sport` (komoot_client.py, lines
228-252): a static dictionary lookup with default `'touringbicycle'`. -/

def sportMappingKeys : List String :=
  ["Ride", "VirtualRide", "EBikeRide", "MountainBikeRide", "GravelRide",
   "Run", "TrailRun", "Walk", "Hike", "RoadBike"]

def map_strava_to_komoot_sport (strava_type : String) : String :=
  if strava_type = "Ride" then "touringbicycle"
  else if strava_type = "VirtualRide" then "touringbicycle"
  else if strava_type = "EBikeRide" then "e_touringbicycle"
  else if strava_type = "MountainBikeRide" then "mtb"
  else if strava_type = "GravelRide" then "mtb"
  else if strava_type = "Run" then "jogging"
  else if strava_type = "TrailRun" then "jogging"
  else if strava_type = "Walk" then "hiking"
  else if strava_type = "Hike" then "hiking"
  else if strava_type = "RoadBike" then "racebike"
  else "touringbicycle"

/-! ### Data model

`Activity`: the fields of the Strava activity-detail dictionary that the
embedded code reads (`activity.get('name', ...)`, `activity.get('type',
'Ride')`, `activity['start_date']`).  An absent key is `none`; `start_date`
is the parsed ISO timestamp as integer epoch seconds. -/

structure Activity where
  name : Option String
  type : Option String
  start_date : Option Int
  deriving Repr, DecidableEq

/-- The dictionary literal `{'name': ..., 'sport': ..., 'status': 'success'}`
returned by `KomootClient.upload_gpx_data` (komoot_client.py, lines
170-175).  It has exactly these three keys. -/
structure UploadResult where
  name : String
  sport : String
  status : String
  deriving Repr, DecidableEq

/-- `result.get('id')` in sync_manager.py line 73: the upload-result
dictionary has no `'id'` key, so `.get` yields Python `None`. -/
def UploadResult.get_tour_id (_ : UploadResult) : Option Int := none

/-- Environment for the Komoot client: `parse_ok gpx` stands for
`gpxpy.parse` succeeding on the bytes, `upload_tour gpx name sport` for the
kompy call (`some b`: returned `b`; `none`: raised an exception). -/
structure KomootEnv where
  parse_ok : List Nat → Bool
  upload_tour : List Nat → String → String → Option Bool

/-- `KomootClient.upload_gpx_data` (komoot_client.py, lines 144-180):
parse the GPX bytes, call `connector.upload_tour`; on truthy success
return the three-key result dictionary, on `False` or any exception
return `None`. -/
def upload_gpx_data (env : KomootEnv) (gpx_data : List Nat)
    (name sport : String) : Option UploadResult :=
  if env.parse_ok gpx_data then
    match env.upload_tour gpx_data name sport with
    | some true => some ⟨name, sport, "success"⟩
    | some false => none
    | none => none
  else none

/-- One element of `SyncManager.sync_log` as appended by `sync_activity`
(sync_manager.py, lines 77-98).  A field of type `Option (Option _)` or
`Option _` distinguishes key-absent (`none`) from key-present: the failure
entry carries no `komoot_tour_id` and no `komoot_sport` key, the success
entry carries `komoot_tour_id` mapped to `result.get('id')` (a possibly
null tour id, hence the inner `Option`). -/
structure LogEntry where
  timestamp : Nat
  strava_activity_id : Int
  strava_activity_name : String
  strava_activity_type : String
  komoot_tour_id : Option (Option Int)
  komoot_sport : Option String
  status : String
  deriving Repr, DecidableEq

/-- Environment for `SyncManager`: the Strava endpoints used by
`sync_activity` and the Komoot environment, plus the wall-clock reading
used for the `timestamp` field. -/
structure SyncEnv where
  get_activity_details : Int → Option Activity
  export_activity_gpx : Int → Option (List Nat)
  komoot : KomootEnv
  now : Nat

/-- Result of one `sync_activity` invocation: the boolean return value,
the updated `sync_log`, the calls made to `komoot.upload_gpx_data`
(gpx bytes, tour name, sport) and the activity ids requested from
`strava.get_activity_details` during the invocation. -/
structure SyncResult where
  ok : Bool
  log : List LogEntry
  uploads : List (List Nat × String × String)
  detail_requests : List Int
  deriving Repr, DecidableEq

/-- `SyncManager.sync_activity` (sync_manager.py, lines 27-100).
Control flow transcribed: fetch details (falsy → return False, nothing
appended); export GPX (falsy bytes, i.e. `None` or empty, → return False,
nothing appended); sport = truthy override or the static mapping of the
activity type; upload; append a success entry (with
`komoot_tour_id = result.get('id')` and the sport used) or a failure
entry (no tour-id and no sport key) and return the outcome. -/
def sync_activity (env : SyncEnv) (log : List LogEntry) (activity_id : Int)
    (sport_override : Option String) : SyncResult :=
  match env.get_activity_details activity_id with
  | none => ⟨false, log, [], [activity_id]⟩
  | some activity =>
    let activity_name := activity.name.getD ("Activity " ++ toString activity_id)
    let activity_type := activity.type.getD "Ride"
    match env.export_activity_gpx activity_id with
    | none => ⟨false, log, [], [activity_id]⟩
    | some gpx_data =>
      if gpx_data.isEmpty then ⟨false, log, [], [activity_id]⟩
      else
        let komoot_sport :=
          match sport_override with
          | some s => if s = "" then map_strava_to_komoot_sport activity_type else s
          | none => map_strava_to_komoot_sport activity_type
        match upload_gpx_data env.komoot gpx_data activity_name komoot_sport with
        | some result =>
          ⟨true,
           log ++ [⟨env.now, activity_id, activity_name, activity_type,
                    some result.get_tour_id, some komoot_sport, "success"⟩],
           [(gpx_data, activity_name, komoot_sport)], [activity_id]⟩
        | none =>
          ⟨false,
           log ++ [⟨env.now, activity_id, activity_name, activity_type,
                    none, none, "failed"⟩],
           [(gpx_data, activity_name, komoot_sport)], [activity_id]⟩

/-- Result of `sync_activities`: the returned tally, the final
`sync_log`, and the concatenated detail-request traces (the activity ids
attempted, in order). -/
structure BulkResult where
  success : Nat
  failed : Nat
  log : List LogEntry
  attempts : List Int
  deriving Repr, DecidableEq

/-- `SyncManager.sync_activities` (sync_manager.py, lines 102-130): loop
over the ids in order, calling `sync_activity` on each and counting
outcomes; no failure stops the loop. -/
def sync_activities (env : SyncEnv) (log : List LogEntry) (activity_ids : List Int)
    (sport_override : Option String) : BulkResult :=
  match activity_ids with
  | [] => ⟨0, 0, log, []⟩
  | activity_id :: rest =>
    let r := sync_activity env log activity_id sport_override
    let b := sync_activities env r.log rest sport_override
    if r.ok then ⟨b.success + 1, b.failed, b.log, r.detail_requests ++ b.attempts⟩
    else ⟨b.success, b.failed + 1, b.log, r.detail_requests ++ b.attempts⟩

/-- `SyncManager.get_synced_activity_ids` (sync_manager.py, lines
209-220): the list comprehension
`[entry['strava_activity_id'] for entry in self.sync_log if entry.get('status') == 'success']`. -/
def get_synced_activity_ids (log : List LogEntry) : List Int :=
  (log.filter (fun e => e.status = "success")).map (fun e => e.strava_activity_id)

/-- `SyncManager.is_activity_synced` (sync_manager.py, lines 222-232):
membership of the id in `get_synced_activity_ids()`. -/
def is_activity_synced (activity_id : Int) (log : List LogEntry) : Bool :=
  decide (activity_id ∈ get_synced_activity_ids log)

/-! ### Source client: pagination

`StravaClient.get_activities` (strava_client.py, lines 72-115): a
`while True` loop starting at page 1, extending the accumulator with each
page's activities, leaving the loop at the first empty page or at the
first `requests` exception (partial result kept).  A stub response list
drives the embedding: element `k` is the origin API's response to the
request for page `k + 1`; `err` stands for a request failing with a
`RequestException`.  The loop issues one request per consumed element, so
the second component below counts the page requests made.  Claims are
stated on stubs containing a terminating page (an empty page or an
error); authentication is assumed established. -/

inductive PageResp (α : Type) where
  | ok (activities : List α)
  | err
  deriving Repr, DecidableEq

def get_activities {α : Type} : List (PageResp α) → List α × Nat
  | [] => ([], 0)
  | PageResp.err :: _ => ([], 1)
  | PageResp.ok [] :: _ => ([], 1)
  | PageResp.ok (a :: more) :: rest =>
    let r := get_activities rest
    ((a :: more) ++ r.1, r.2 + 1)

/-! ### Source client: GPX synthesis from streams -/

/-- The stream dictionary fetched for `['time', 'latlng', 'altitude']`:
a key absent from the response is `none`.  Coordinates, offsets and
elevations are numeric passthrough values, modelled as integers. -/
structure StreamSet where
  time : Option (List Int)
  latlng : Option (List (Int × Int))
  altitude : Option (List Int)
  deriving Repr, DecidableEq

/-- One `GPXTrackPoint` as built by the synthesis loop: `time` is the
point's absolute timestamp in epoch seconds
(`start_time.timestamp() + time_data[i]`). -/
structure GpxTrackPoint where
  latitude : Int
  longitude : Int
  elevation : Option Int
  time : Option Int
  deriving Repr, DecidableEq

/-- The synthesized GPX document: one track (name and type from the
activity) holding one segment of points. -/
structure GpxTrack where
  name : String
  type : String
  points : List GpxTrackPoint
  deriving Repr, DecidableEq

/-- `StravaClient._generate_gpx_from_streams` (strava_client.py, lines
197-267), taking the already-fetched detail and stream responses as
arguments.  `None` details, `None` streams, a missing `latlng` key, or a
missing `start_date` key (a `KeyError` swallowed by the blanket
`except`) all yield `None`.  Otherwise one point is built per `latlng`
sample: elevation is `altitude_data[i] if i < len(altitude_data) else
None` and the timestamp is `start_time.timestamp() + time_data[i]` when
`i < len(time_data)`, else `None`. -/
def generate_gpx_from_streams (activity : Option Activity)
    (streams : Option StreamSet) (activity_id : Int) : Option GpxTrack :=
  match activity with
  | none => none
  | some act =>
    match streams with
    | none => none
    | some s =>
      match s.latlng with
      | none => none
      | some latlng_data =>
        let time_data := s.time.getD []
        let altitude_data := s.altitude.getD []
        match act.start_date with
        | none => none
        | some start_time =>
          some { name := act.name.getD ("Activity " ++ toString activity_id)
                 type := act.type.getD "Ride"
                 points := latlng_data.enum.map (fun p =>
                   { latitude := p.2.1
                     longitude := p.2.2
                     elevation := altitude_data.get? p.1
                     time := (time_data.get? p.1).map (fun t => start_time + t) }) }

/-! ### Concrete stub environments used in the closed statements -/

/-- A stub environment in which every stage succeeds: activity details
are `{'name': 'Morning Ride', 'type': 'Ride', 'start_date': epoch 0}`,
the GPX export yields one byte, parsing succeeds and the kompy upload
returns `True`. -/
def envAll : SyncEnv :=
  { get_activity_details := fun _ => some ⟨some "Morning Ride", some "Ride", some 0⟩
    export_activity_gpx := fun _ => some [60]
    komoot := ⟨fun _ => true, fun _ _ _ => some true⟩
    now := 0 }

/-- A stub environment in which the activity-details fetch fails
(`get_activity_details` returns `None`). -/
def envNoDetails : SyncEnv :=
  { get_activity_details := fun _ => none
    export_activity_gpx := fun _ => none
    komoot := ⟨fun _ => false, fun _ _ _ => none⟩
    now := 0 }

/-- A stub environment in which everything succeeds except the kompy
upload of activity 2's GPX (the exported bytes encode the activity id,
and `upload_tour` returns `False` exactly on those bytes). -/
def envFailOnTwo : SyncEnv :=
  { get_activity_details := fun i => some ⟨some ("A" ++ toString i), some "Ride", some 0⟩
    export_activity_gpx := fun i => some [i.toNat]
    komoot := ⟨fun _ => true, fun g _ _ => some (g ≠ [2])⟩
    now := 0 }

/-- A ledger entry recording an earlier successful sync of activity 42,
as `sync_activity` itself would append it. -/
def successEntry42 : LogEntry :=
  ⟨0, 42, "Morning Ride", "Ride", some none, some "touringbicycle", "success"⟩

/-! ### Helper lemmas about `sync_activity` and the sync log -/

/-- Every branch of `sync_activity` requests exactly the given id's
details once. -/
lemma sync_activity_detail_requests (env : SyncEnv) (log : List LogEntry)
    (activity_id : Int) (o : Option String) :
    (sync_activity env log activity_id o).detail_requests = [activity_id] := by
  unfold sync_activity
  dsimp only
  repeat' split
  all_goals rfl

/-- Case analysis of one `sync_activity` invocation: either nothing is
appended (early failure, no upload call), or exactly one upload call is
made and exactly one entry is appended, a success entry with a
null tour id and the sport used, or a failure entry with neither key. -/
lemma sync_activity_spec (env : SyncEnv) (log : List LogEntry)
    (activity_id : Int) (o : Option String) :
    ((sync_activity env log activity_id o).log = log ∧
     (sync_activity env log activity_id o).ok = false ∧
     (sync_activity env log activity_id o).uploads = []) ∨
    (∃ e call, (sync_activity env log activity_id o).log = log ++ [e] ∧
      (sync_activity env log activity_id o).uploads = [call] ∧
      e.strava_activity_id = activity_id ∧
      (((sync_activity env log activity_id o).ok = true ∧ e.status = "success" ∧
        e.komoot_tour_id = some none ∧ e.komoot_sport = some call.2.2) ∨
       ((sync_activity env log activity_id o).ok = false ∧ e.status = "failed" ∧
        e.komoot_tour_id = none ∧ e.komoot_sport = none))) := by
  unfold sync_activity
  dsimp only
  repeat' split
  all_goals first
    | exact Or.inl ⟨rfl, rfl, rfl⟩
    | exact Or.inr ⟨_, _, rfl, rfl, rfl, Or.inl ⟨rfl, rfl, rfl, rfl⟩⟩
    | exact Or.inr ⟨_, _, rfl, rfl, rfl, Or.inr ⟨rfl, rfl, rfl, rfl⟩⟩

/-- The outcome and the calls of `sync_activity` do not depend on the
current sync log; the log is only appended to. -/
lemma sync_activity_log_indep (env : SyncEnv) (log log' : List LogEntry)
    (activity_id : Int) (o : Option String) :
    (sync_activity env log activity_id o).ok = (sync_activity env log' activity_id o).ok ∧
    (sync_activity env log activity_id o).uploads = (sync_activity env log' activity_id o).uploads ∧
    (sync_activity env log activity_id o).log.drop log.length
      = (sync_activity env log' activity_id o).log.drop log'.length := by
  unfold sync_activity
  dsimp only
  repeat' split
  all_goals exact ⟨rfl, rfl, by simp⟩

/-- Membership in `get_synced_activity_ids` is exactly "some entry with
status success carries this id". -/
lemma mem_get_synced_iff (log : List LogEntry) (activity_id : Int) :
    activity_id ∈ get_synced_activity_ids log ↔
      ∃ e ∈ log, e.status = "success" ∧ e.strava_activity_id = activity_id := by
  simp only [get_synced_activity_ids, List.mem_map, List.mem_filter,
    decide_eq_true_eq]
  constructor
  · rintro ⟨e, ⟨he, hs⟩, hid⟩
    exact ⟨e, he, hs, hid⟩
  · rintro ⟨e, he, hs, hid⟩
    exact ⟨e, ⟨he, hs⟩, hid⟩

/-- `is_activity_synced` is monotone under appending entries. -/
lemma is_activity_synced_append (log tail : List LogEntry) (activity_id : Int)
    (h : is_activity_synced activity_id log = true) :
    is_activity_synced activity_id (log ++ tail) = true := by
  simp only [is_activity_synced, decide_eq_true_eq, mem_get_synced_iff] at h ⊢
  obtain ⟨e, he, hs, hid⟩ := h
  exact ⟨e, List.mem_append_left _ he, hs, hid⟩

/-- `sync_activities` only ever appends to the log. -/
lemma sync_activities_only_appends (env : SyncEnv) (activity_ids : List Int)
    (o : Option String) :
    ∀ log : List LogEntry, ∃ tail,
      (sync_activities env log activity_ids o).log = log ++ tail := by
  induction activity_ids with
  | nil => intro log; exact ⟨[], by simp [sync_activities]⟩
  | cons a rest ih =>
    intro log
    rcases sync_activity_spec env log a o with ⟨h, _, _⟩ | ⟨e, _, h, _⟩
    · rcases ih (sync_activity env log a o).log with ⟨tail, htail⟩
      refine ⟨tail, ?_⟩
      simp only [sync_activities]
      split <;> rw [htail, h]
    · rcases ih (sync_activity env log a o).log with ⟨tail, htail⟩
      refine ⟨[e] ++ tail, ?_⟩
      simp only [sync_activities]
      split <;> rw [htail, h, List.append_assoc]

/-- The pagination loop on a stub made of nonempty pages followed by a
terminating response (an empty page or a request error) and arbitrary
further stub entries: it accumulates exactly the concatenation of the
nonempty pages and issues exactly one request per nonempty page plus the
terminating one — nothing after the terminator is requested. -/
lemma get_activities_run {α : Type} (pages : List (List α))
    (h : ∀ p ∈ pages, p ≠ []) (t : PageResp α)
    (ht : t = PageResp.err ∨ t = PageResp.ok []) (rest : List (PageResp α)) :
    get_activities (pages.map PageResp.ok ++ t :: rest)
      = (pages.flatten, pages.length + 1) := by
  induction pages with
  | nil =>
    rcases ht with h1 | h1 <;> subst h1 <;> simp [get_activities]
  | cons p ps ih =>
    have hp : p ≠ [] := h p (List.mem_cons_self p ps)
    cases p with
    | nil => exact absurd rfl hp
    | cons a as =>
      have hrec := ih (fun q hq => h q (List.mem_cons_of_mem _ hq))
      simp only [List.map_cons, List.cons_append, get_activities]
      simp [hrec]

end StravaKomootSync

open StravaKomootSync

/-- C10: `map_strava_to_komoot_sport` is a pure static lookup: Ride and
VirtualRide map to `touringbicycle`, RoadBike to `racebike`, EBikeRide to
`e_touringbicycle`, MountainBikeRide and GravelRide to `mtb`, Run and
TrailRun to `jogging`, Walk and Hike to `hiking`, and every string outside
the table's keys falls back to `touringbicycle`; in particular
RoadBike ↦ racebike, Hike ↦ hiking, UnknownXYZ ↦ touringbicycle. -/
theorem C10_map_category_table :
    StravaKomootSync.map_strava_to_komoot_sport "Ride" = "touringbicycle" ∧
    StravaKomootSync.map_strava_to_komoot_sport "VirtualRide" = "touringbicycle" ∧
    StravaKomootSync.map_strava_to_komoot_sport "RoadBike" = "racebike" ∧
    StravaKomootSync.map_strava_to_komoot_sport "EBikeRide" = "e_touringbicycle" ∧
    StravaKomootSync.map_strava_to_komoot_sport "MountainBikeRide" = "mtb" ∧
    StravaKomootSync.map_strava_to_komoot_sport "GravelRide" = "mtb" ∧
    StravaKomootSync.map_strava_to_komoot_sport "Run" = "jogging" ∧
    StravaKomootSync.map_strava_to_komoot_sport "TrailRun" = "jogging" ∧
    StravaKomootSync.map_strava_to_komoot_sport "Walk" = "hiking" ∧
    StravaKomootSync.map_strava_to_komoot_sport "Hike" = "hiking" ∧
    StravaKomootSync.map_strava_to_komoot_sport "UnknownXYZ" = "touringbicycle" ∧
    (∀ s : String, s ∉ StravaKomootSync.sportMappingKeys →
      StravaKomootSync.map_strava_to_komoot_sport s = "touringbicycle") := by
  refine ⟨rfl, rfl, rfl, rfl, rfl, rfl, rfl, rfl, rfl, rfl, rfl, ?_⟩
  intro s hs
  simp only [StravaKomootSync.sportMappingKeys, List.mem_cons, List.not_mem_nil,
    or_false, not_or] at hs
  obtain ⟨h1, h2, h3, h4, h5, h6, h7, h8, h9, h10⟩ := hs
  simp [StravaKomootSync.map_strava_to_komoot_sport, h1, h2, h3, h4, h5, h6, h7, h8, h9, h10]

/-- Witness for C10: instantiating the fallback clause at the concrete
string "UnknownXYZ". -/
theorem C10_map_category_table_witness :
    StravaKomootSync.map_strava_to_komoot_sport "UnknownXYZ" = "touringbicycle" :=
  C10_map_category_table.2.2.2.2.2.2.2.2.2.2.2 "UnknownXYZ" (by decide)

/-- C1 counterexample: the claim says every `sync_activity` invocation
grows the ledger by exactly one entry regardless of outcome; but when the
activity-details fetch fails the invocation returns `False` with the
ledger unchanged — length 0, not 1. -/
theorem C1_counterexample :
    ¬ ((sync_activity envNoDetails [] 42 none).log.length
        = ([] : List LogEntry).length + 1) := by decide

/-- C1 (amended): a `sync_activity` invocation appends at most one entry
and leaves all prior entries unchanged; it appends exactly one entry
exactly when it makes an upload call (the appended-entry count equals the
upload-call count), and appends nothing when it fails before the upload
stage. -/
theorem C1_ledger_gains :
    ∀ (env : SyncEnv) (log : List LogEntry) (activity_id : Int) (o : Option String),
      ∃ tail,
        (sync_activity env log activity_id o).log = log ++ tail ∧
        tail.length = (sync_activity env log activity_id o).uploads.length ∧
        tail.length ≤ 1 := by
  intro env log activity_id o
  rcases sync_activity_spec env log activity_id o with ⟨h1, _, h3⟩ | ⟨e, call, h1, h2, _⟩
  · exact ⟨[], by simp [h1], by simp [h3], by simp⟩
  · exact ⟨[e], h1, by simp [h2], by simp⟩

/-- C2 counterexample: activity 42 already has a success ledger entry
(`is_synced(42)` is true), yet a sync invocation on 42 still calls the
destination upload — the bookkeeping does not prevent the duplicate
transfer. -/
theorem C2_counterexample :
    is_activity_synced 42 [successEntry42] = true ∧
    (sync_activity envAll [successEntry42] 42 none).uploads ≠ [] ∧
    (sync_activity envAll [successEntry42] 42 none).log.length = 2 := by decide

/-- C2 (amended): the sync log records outcomes but is never consulted by
`sync_activity`: the upload calls made and the returned outcome are the
same as on an empty ledger, even for an id whose success entry is already
present (including one loaded from a persisted ledger at startup), so a
subsequent invocation uploads the activity again whenever its pipeline
succeeds. -/
theorem C2_ledger_not_consulted :
    ∀ (env : SyncEnv) (log : List LogEntry) (activity_id : Int) (o : Option String),
      is_activity_synced activity_id log = true →
      (sync_activity env log activity_id o).uploads
        = (sync_activity env [] activity_id o).uploads ∧
      (sync_activity env log activity_id o).ok
        = (sync_activity env [] activity_id o).ok := by
  intro env log activity_id o _
  exact ⟨(sync_activity_log_indep env log [] activity_id o).2.1,
         (sync_activity_log_indep env log [] activity_id o).1⟩

/-- Witness for C2 (amended): applied to the loaded ledger that already
holds a success entry for activity 42. -/
theorem C2_ledger_not_consulted_witness :
    (sync_activity envAll [successEntry42] 42 none).uploads
      = (sync_activity envAll [] 42 none).uploads ∧
    (sync_activity envAll [successEntry42] 42 none).ok
      = (sync_activity envAll [] 42 none).ok :=
  C2_ledger_not_consulted envAll [successEntry42] 42 none (by decide)

/-- C3: an id with a success ledger entry satisfies `is_activity_synced`;
a successful `sync_activity` establishes it; and it is preserved by any
later `sync_activity` or `sync_activities` call whatever that call's
outcome, since those only append entries. -/
theorem C3_is_synced_persistent :
    ∀ (log : List LogEntry) (activity_id : Int),
      ((∃ e ∈ log, e.status = "success" ∧ e.strava_activity_id = activity_id) →
        is_activity_synced activity_id log = true) ∧
      (∀ env o, (sync_activity env log activity_id o).ok = true →
        is_activity_synced activity_id (sync_activity env log activity_id o).log = true) ∧
      (is_activity_synced activity_id log = true →
        (∀ env id2 o,
          is_activity_synced activity_id (sync_activity env log id2 o).log = true) ∧
        (∀ env ids o,
          is_activity_synced activity_id (sync_activities env log ids o).log = true)) := by
  intro log activity_id
  refine ⟨?_, ?_, ?_⟩
  · intro h
    simp only [is_activity_synced, decide_eq_true_eq, mem_get_synced_iff]
    exact h
  · intro env o hok
    rcases sync_activity_spec env log activity_id o with ⟨_, hfalse, _⟩ |
      ⟨e, call, hlog, _, hid, hcase⟩
    · rw [hok] at hfalse; simp at hfalse
    · rcases hcase with ⟨_, hs, _, _⟩ | ⟨hfalse, _, _, _⟩
      · rw [hlog]
        simp only [is_activity_synced, decide_eq_true_eq, mem_get_synced_iff]
        exact ⟨e, by simp, hs, hid⟩
      · rw [hok] at hfalse; simp at hfalse
  · intro h
    constructor
    · intro env id2 o
      rcases sync_activity_spec env log id2 o with ⟨hlog, _, _⟩ | ⟨e, call, hlog, _⟩
      · rw [hlog]; exact h
      · rw [hlog]; exact is_activity_synced_append log [e] activity_id h
    · intro env ids o
      rcases sync_activities_only_appends env ids o log with ⟨tail, htail⟩
      rw [htail]; exact is_activity_synced_append log tail activity_id h

/-- Witness for C3: activity 42 becomes synced after a successful
transfer, and stays synced across a second (failing) transfer attempt and
across a bulk run over other ids. -/
theorem C3_is_synced_persistent_witness :
    is_activity_synced 42 ((sync_activity envAll [] 42 none).log) = true ∧
    is_activity_synced 42 ((sync_activity envNoDetails [successEntry42] 42 none).log) = true ∧
    is_activity_synced 42 ((sync_activities envNoDetails [successEntry42] [7, 8] none).log) = true :=
  ⟨(C3_is_synced_persistent [] 42).2.1 envAll none (by decide),
   ((C3_is_synced_persistent [successEntry42] 42).2.2 (by decide)).1 envNoDetails 42 none,
   ((C3_is_synced_persistent [successEntry42] 42).2.2 (by decide)).2 envNoDetails [7, 8] none⟩

/-- C4 counterexample: after two successful syncs of the same activity 5
(a ledger state the coordinator itself produces), `get_synced_activity_ids`
returns `[5, 5]` — the claim's "no duplicate ids, duplicates collapsed"
fails. -/
theorem C4_counterexample :
    get_synced_activity_ids
        (sync_activity envAll (sync_activity envAll [] 5 none).log 5 none).log = [5, 5] ∧
    ¬ (get_synced_activity_ids
        (sync_activity envAll (sync_activity envAll [] 5 none).log 5 none).log).Nodup := by
  decide

/-- C4 (amended): `get_synced_activity_ids` returns the ids of the
success entries in ledger order, one occurrence per success entry —
duplicates are not collapsed (its length is the number of success
entries); membership-wise it is exactly the set of ids having at least
one success entry. -/
theorem C4_synced_ids_semantics :
    ∀ (log : List LogEntry) (activity_id : Int),
      (activity_id ∈ get_synced_activity_ids log ↔
        ∃ e ∈ log, e.status = "success" ∧ e.strava_activity_id = activity_id) ∧
      (get_synced_activity_ids log).length
        = (log.filter (fun e => e.status = "success")).length := by
  intro log activity_id
  exact ⟨mem_get_synced_iff log activity_id, by simp [get_synced_activity_ids]⟩

/-- Witness for C4 (amended): instantiated on the one-success-entry
ledger for activity 42. -/
theorem C4_synced_ids_semantics_witness :
    (42 ∈ get_synced_activity_ids [successEntry42] ↔
      ∃ e ∈ [successEntry42], e.status = "success" ∧ e.strava_activity_id = 42) ∧
    (get_synced_activity_ids [successEntry42]).length
      = ([successEntry42].filter (fun e => e.status = "success")).length :=
  C4_synced_ids_semantics [successEntry42] 42

/-- C5 counterexample: a fully successful transfer of activity 42 appends
a success entry whose `komoot_tour_id` value is null (`result.get('id')`
on an upload result that has no `'id'` key), so the entry does not
contain the destination tour id of any created tour. -/
theorem C5_counterexample :
    (sync_activity envAll [] 42 none).ok = true ∧
    (sync_activity envAll [] 42 none).log.map (fun e => e.komoot_tour_id) = [some none] ∧
    ¬ ∃ t : Int, (sync_activity envAll [] 42 none).log.map (fun e => e.komoot_tour_id)
        = [some (some t)] := by
  refine ⟨by decide, by decide, ?_⟩
  rintro ⟨t, h⟩
  have h2 : (sync_activity envAll [] 42 none).log.map (fun e => e.komoot_tour_id)
      = [some none] := by decide
  rw [h2] at h
  simp at h

/-- C5 (amended): every entry appended by `sync_activity` records the
attempt's outcome: on upload success a `success` entry carrying the sport
used and a `komoot_tour_id` key whose value is always null (the upload
result has only name/sport/status, never a tour id); on upload failure a
`failed` entry with neither a tour-id nor a sport key. -/
theorem C5_entry_shape :
    ∀ (env : SyncEnv) (log : List LogEntry) (activity_id : Int) (o : Option String),
      (sync_activity env log activity_id o).log = log ∨
      ∃ e, (sync_activity env log activity_id o).log = log ++ [e] ∧
        (((sync_activity env log activity_id o).ok = true ∧ e.status = "success" ∧
          e.komoot_tour_id = some none ∧ ∃ s, e.komoot_sport = some s) ∨
         ((sync_activity env log activity_id o).ok = false ∧ e.status = "failed" ∧
          e.komoot_tour_id = none ∧ e.komoot_sport = none)) := by
  intro env log activity_id o
  rcases sync_activity_spec env log activity_id o with ⟨h1, _, _⟩ |
    ⟨e, call, h1, _, _, hcase⟩
  · exact Or.inl h1
  · right
    refine ⟨e, h1, ?_⟩
    rcases hcase with ⟨ha, hb, hc, hd⟩ | ⟨ha, hb, hc, hd⟩
    · exact Or.inl ⟨ha, hb, hc, call.2.2, hd⟩
    · exact Or.inr ⟨ha, hb, hc, hd⟩

/-- C6: a track synthesized from streams with `latlng` present has one
point per `latlng` sample; point `i` carries position `latlng[i]`,
elevation `altitude[i]` when `i` is within the altitude array (absent
otherwise), and timestamp start-time + `time[i]` when `i` is within the
time array (absent otherwise); on the spec's concrete example
(latlng = [(1,2),(3,4)], time = [0,10], altitude = [100], start
2024-01-01T00:00:00Z = epoch 1704067200) the two points are as claimed. -/
theorem C6_track_synthesis :
    (∀ (name ty : Option String) (st : Int) (L : List (Int × Int))
       (T A : Option (List Int)) (activity_id : Int),
      ∃ track,
        generate_gpx_from_streams (some ⟨name, ty, some st⟩)
            (some ⟨T, some L, A⟩) activity_id = some track ∧
        track.points.length = L.length ∧
        ∀ i : Nat, track.points[i]? = L[i]?.map (fun p =>
          { latitude := p.1
            longitude := p.2
            elevation := (A.getD [])[i]?
            time := (T.getD [])[i]?.map (fun t => st + t) })) ∧
    (generate_gpx_from_streams (some ⟨some "Morning Ride", some "Ride", some 1704067200⟩)
        (some ⟨some [0, 10], some [(1, 2), (3, 4)], some [100]⟩) 7
      = some { name := "Morning Ride", type := "Ride",
               points := [⟨1, 2, some 100, some 1704067200⟩,
                          ⟨3, 4, none, some 1704067210⟩] }) := by
  constructor
  · intro name ty st L T A activity_id
    refine ⟨_, rfl, ?_, ?_⟩
    · simp [generate_gpx_from_streams]
    · intro i
      simp only [generate_gpx_from_streams, List.getElem?_map, List.getElem?_enum,
        Option.map_map]
      cases hL : L[i]? <;> simp
  · decide

/-- C7: pagination starts at page 1 and requests successive pages,
accumulating every returned activity, and stops at the first empty page:
on a stub of nonempty pages followed by an empty page (and whatever would
come after), the result is the concatenation of the nonempty pages in
order, and exactly one request is issued per nonempty page plus one for
the empty page — none beyond it; for pages [A,B], [C], [] the result is
[A,B,C] in 3 requests. -/
theorem C7_pagination :
    (∀ {α : Type} (pages : List (List α)) (rest : List (PageResp α)),
      (∀ p ∈ pages, p ≠ []) →
      get_activities (pages.map PageResp.ok ++ PageResp.ok [] :: rest)
        = (pages.flatten, pages.length + 1)) ∧
    (∀ {α : Type} (A B C : α),
      get_activities [PageResp.ok [A, B], PageResp.ok [C], PageResp.ok []]
        = ([A, B, C], 3)) := by
  constructor
  · intro α pages rest h
    exact get_activities_run pages h (PageResp.ok []) (Or.inr rfl) rest
  · intro α A B C
    rfl

/-- Witness for C7: two nonempty pages [1,2] and [3] then the empty page. -/
theorem C7_pagination_witness :
    get_activities ([[1, 2], [3]].map PageResp.ok
        ++ PageResp.ok [] :: ([] : List (PageResp Nat)))
      = ([1, 2, 3], 3) :=
  C7_pagination.1 [[1, 2], [3]] [] (by decide)

/-- C8: a network error on a page request aborts pagination and the call
returns the activities accumulated from the earlier pages as a normal
partial result (the return type carries no error): on a stub of nonempty
pages followed by a failing request, the result is the concatenation of
those pages, with no request issued past the failing one; for page [A,B]
then an error, the result is [A,B]. -/
theorem C8_partial_pagination :
    (∀ {α : Type} (pages : List (List α)) (rest : List (PageResp α)),
      (∀ p ∈ pages, p ≠ []) →
      get_activities (pages.map PageResp.ok ++ PageResp.err :: rest)
        = (pages.flatten, pages.length + 1)) ∧
    (∀ {α : Type} (A B : α),
      get_activities [PageResp.ok [A, B], PageResp.err] = ([A, B], 2)) := by
  constructor
  · intro α pages rest h
    exact get_activities_run pages h PageResp.err (Or.inl rfl) rest
  · intro α A B
    rfl

/-- Witness for C8: one nonempty page [1,2], then the second page request
fails. -/
theorem C8_partial_pagination_witness :
    get_activities ([[1, 2]].map PageResp.ok
        ++ PageResp.err :: ([] : List (PageResp Nat)))
      = ([1, 2], 2) :=
  C8_partial_pagination.1 [[1, 2]] [] (by decide)

/-- C9: `sync_activities` attempts every id in the given order (the
detail-request trace equals the input list), one failure aborts nothing,
and the returned tally counts exactly the per-id outcomes, summing to the
list's length; on ids [1,2,3] with id 2's upload failing it still
attempts and records id 3, returning success 2 / failed 1. -/
theorem C9_bulk_tally :
    (∀ (env : SyncEnv) (log : List LogEntry) (ids : List Int) (o : Option String),
      (sync_activities env log ids o).success + (sync_activities env log ids o).failed
        = ids.length ∧
      (sync_activities env log ids o).attempts = ids ∧
      (sync_activities env log ids o).success
        = (ids.filter (fun i => (sync_activity env [] i o).ok)).length) ∧
    ((sync_activities envFailOnTwo [] [1, 2, 3] none).success = 2 ∧
     (sync_activities envFailOnTwo [] [1, 2, 3] none).failed = 1 ∧
     (sync_activities envFailOnTwo [] [1, 2, 3] none).attempts = [1, 2, 3] ∧
     (sync_activities envFailOnTwo [] [1, 2, 3] none).log.map
         (fun e => (e.strava_activity_id, e.status))
       = [(1, "success"), (2, "failed"), (3, "success")]) := by
  constructor
  · intro env log ids o
    induction ids generalizing log with
    | nil => simp [sync_activities]
    | cons a rest ih =>
      have hok : (sync_activity env log a o).ok = (sync_activity env [] a o).ok :=
        (sync_activity_log_indep env log [] a o).1
      have hdr := sync_activity_detail_requests env log a o
      rcases ih (sync_activity env log a o).log with ⟨ih1, ih2, ih3⟩
      simp only [sync_activities]
      by_cases h : (sync_activity env log a o).ok = true
      · rw [if_pos h]
        refine ⟨by dsimp; omega, by simp [hdr, ih2], ?_⟩
        dsimp
        rw [List.filter_cons_of_pos (by rw [← hok]; exact h)]
        simp [ih3]
      · rw [if_neg h]
        refine ⟨by dsimp; omega, by simp [hdr, ih2], ?_⟩
        dsimp
        rw [List.filter_cons_of_neg (by rw [← hok]; exact h)]
        exact ih3
  · decide
